import Mathlib

/-!
# Verification of the meeting-assistant audio pipeline

A shallow embedding of the core of the `meeting-assistant` repository:

* `src/audio/capture.py` — energy-based voice-activity segmentation
  (`AudioCapture._process_chunk`);
* `src/audio/transcription_recorder.py` — the bounded note-recording
  session (`TranscriptionRecorder`);
* `src/speech/trigger_detector.py` — trigger-phrase detection with topic
  extraction (`TriggerDetector`);
* `src/research/engine.py` — provider selection in `ResearchEngine.research`;
* `src/main.py` — the routing done by `AudioProcessor.on_audio`.

Modelling conventions.  Audio samples and thresholds are rationals (`ℚ`);
the Python code uses floating point, which we treat as exact arithmetic.
The root-mean-square energy `sqrt(mean(audio**2))` is irrational in
general, so comparisons `energy > t` / `energy < t` are embedded by the
equivalent comparisons of `mean(audio**2)` against `t^2` (for `t ≥ 0`;
both sides of the original comparison are nonnegative).  Wall-clock
reads (`datetime.now()`, `time.time()`) become explicit `now : ℚ`
arguments.  Python strings are lists of characters; `str.lower`,
`str.upper` and `str.strip` are modelled on ASCII (Lean's `Char.toLower`
/ `Char.toUpper` and the Python whitespace class).  Callbacks are
carried as data of an abstract type and never invoked inside the model.
-/

namespace MeetingAssistant

/- Mathlib seals the arithmetic of `Rat` as irreducible; concrete
states and energies below are evaluated by `decide` and `rfl`, which
need these operations to unfold. -/
attribute [local semireducible] Rat.mul Rat.add Rat.sub Rat.inv

/-- The literal scale `0.01` applied to `vad_threshold` in
`AudioCapture._process_chunk` (`energy > self.vad_threshold * 0.01`). -/
def vadScale : ℚ := 1 / 100

/-- The literal low-energy threshold `0.01` in
`TranscriptionRecorder.add_audio` (`is_silence = energy < 0.01`). -/
def silenceThreshold : ℚ := 1 / 100

/-- Mean of squares of the samples of an audio chunk:
`np.mean(audio ** 2)` (we keep the mean of squares rather than its
square root, see the header). -/
def meanSq (audio : List ℚ) : ℚ :=
  (audio.map (fun x => x ^ 2)).sum / (audio.length : ℚ)

/-- `sqrt (meanSq audio) > t`, expressed without the square root:
for `t ≥ 0` this is `meanSq audio > t ^ 2`; for `t < 0` it always holds
(the RMS energy is nonnegative). -/
def energyGt (audio : List ℚ) (t : ℚ) : Bool :=
  if t < 0 then true else decide (meanSq audio > t ^ 2)

/-- `sqrt (meanSq audio) < t`, expressed without the square root:
for `t ≥ 0` this is `meanSq audio < t ^ 2`; for `t < 0` it never holds. -/
def energyLt (audio : List ℚ) (t : ℚ) : Bool :=
  if t < 0 then false else decide (meanSq audio < t ^ 2)

/-! ## `AudioCapture` — voice-activity segmentation (`src/audio/capture.py`) -/

/-- The configuration of `AudioCapture` used by `_process_chunk`. -/
structure CaptureConfig where
  vad_threshold : ℚ := 1 / 2
  deriving Repr, DecidableEq

/-- The VAD state of `AudioCapture`: `_silence_chunks`, `_speech_buffer`
and `_in_speech`.  The constants `_speech_start_chunks = 3`,
`_silence_end_chunks = 10` and the context-window cap `5` are literals
in the source and appear as literals in `process_chunk`. -/
structure CaptureState where
  silence_chunks : ℕ := 0
  speech_buffer : List (List ℚ) := []
  in_speech : Bool := false
  deriving Repr, DecidableEq

/-- Initial VAD state, as set up in `AudioCapture.__init__`. -/
def initCapture : CaptureState := {}

/-- `AudioCapture._process_chunk` (capture.py lines 148–180): one VAD
step.  Returns the next state and the utterance passed to the `on_audio`
callback, when one is emitted. -/
def process_chunk (cfg : CaptureConfig) (s : CaptureState) (audio : List ℚ) :
    CaptureState × Option (List ℚ) :=
  let is_speech := energyGt audio (cfg.vad_threshold * vadScale)
  if is_speech then
    let buffer := s.speech_buffer ++ [audio]
    let in_speech := if ¬ s.in_speech ∧ buffer.length ≥ 3 then true else s.in_speech
    ({ silence_chunks := 0, speech_buffer := buffer, in_speech := in_speech }, none)
  else if s.in_speech then
    let silence_chunks := s.silence_chunks + 1
    let buffer := s.speech_buffer ++ [audio]
    if silence_chunks ≥ 10 then
      ({ silence_chunks := 0, speech_buffer := [], in_speech := false },
       if buffer.isEmpty then none else some buffer.flatten)
    else
      ({ silence_chunks := silence_chunks, speech_buffer := buffer, in_speech := true }, none)
  else
    let buffer := s.speech_buffer ++ [audio]
    let buffer := if buffer.length > 5 then buffer.tail else buffer
    ({ s with speech_buffer := buffer }, none)

/-- Fold `process_chunk` over a frame sequence, collecting every emitted
utterance (i.e. every invocation of the `on_audio` callback). -/
def processChunks (cfg : CaptureConfig) (s : CaptureState) :
    List (List ℚ) → CaptureState × List (List ℚ)
  | [] => (s, [])
  | a :: rest =>
    match process_chunk cfg s a with
    | (s1, emitted) =>
      let (s2, out) := processChunks cfg s1 rest
      (s2, (emitted.toList) ++ out)

/-! ## `TranscriptionRecorder` (`src/audio/transcription_recorder.py`) -/

/-- Constructor parameters of `TranscriptionRecorder`. -/
structure RecorderConfig where
  sample_rate : ℚ := 16000
  auto_stop_silence_seconds : ℚ := 5
  max_duration_seconds : ℚ := 60
  deriving Repr, DecidableEq

/-- The dataclass `TranscriptSegment`.  Text fields are character lists;
`start_time` mirrors the `Optional`-typed `_start_time` field it is
copied from. -/
structure TranscriptSegment where
  trigger : List Char
  start_time : Option ℚ
  end_time : ℚ
  duration_seconds : ℚ
  audio_data : List ℚ
  transcript : List Char := []
  deriving Repr, DecidableEq

/-- The mutable state of `TranscriptionRecorder`: `_recording`,
`_audio_buffer`, `_start_time`, `_trigger`, `_silence_start` and
`_on_complete`.  The completion callback is opaque data of type `κ`;
the model never invokes it (in `add_audio` the finished segment is both
passed to the callback and returned, so returning it loses nothing). -/
structure RecState (κ : Type) where
  recording : Bool := false
  audio_buffer : List (List ℚ) := []
  start_time : Option ℚ := none
  trigger : List Char := []
  silence_start : Option ℚ := none
  on_complete : Option κ := none
  deriving Repr, DecidableEq

/-- `TranscriptionRecorder.start_recording` (lines 48–63): succeeds and
resets the session state only when not already recording. -/
def start_recording {κ : Type} (s : RecState κ) (now : ℚ) (trigger : List Char)
    (on_complete : κ) : Bool × RecState κ :=
  if s.recording then
    (false, s)
  else
    (true,
     { recording := true, audio_buffer := [], start_time := some now,
       trigger := trigger, silence_start := none, on_complete := some on_complete })

/-- `TranscriptionRecorder.stop_recording` (lines 65–96): explicit
finalize.  `now` is the `datetime.now()` read taken for `end_time`. -/
def stop_recording {κ : Type} (cfg : RecorderConfig) (s : RecState κ) (now : ℚ) :
    Option TranscriptSegment × RecState κ :=
  if ¬ s.recording then
    (none, s)
  else
    let s := { s with recording := false }
    if s.audio_buffer.isEmpty then
      (none, s)
    else
      let audio_data := s.audio_buffer.flatten
      let duration := (audio_data.length : ℚ) / cfg.sample_rate
      let segment : TranscriptSegment :=
        { trigger := s.trigger, start_time := s.start_time, end_time := now,
          duration_seconds := duration, audio_data := audio_data }
      (some segment, { s with audio_buffer := [], start_time := none })

/-- `TranscriptionRecorder._stop_and_get_segment` (lines 138–163): the
lock-free variant used by `add_audio`; its body coincides with
`stop_recording`. -/
def stop_and_get_segment {κ : Type} (cfg : RecorderConfig) (s : RecState κ) (now : ℚ) :
    Option TranscriptSegment × RecState κ :=
  if ¬ s.recording then
    (none, s)
  else
    let s := { s with recording := false }
    if s.audio_buffer.isEmpty then
      (none, s)
    else
      let audio_data := s.audio_buffer.flatten
      let duration := (audio_data.length : ℚ) / cfg.sample_rate
      let segment : TranscriptSegment :=
        { trigger := s.trigger, start_time := s.start_time, end_time := now,
          duration_seconds := duration, audio_data := audio_data }
      (some segment, { s with audio_buffer := [], start_time := none })

/-- `TranscriptionRecorder.add_audio` (lines 98–136): append a chunk;
auto-stop on the duration cap (checked first) or on a silence run of at
least `auto_stop_silence_seconds`.  `now` stands for both clock reads
(`datetime.now()` inside finalization and `time.time()` for the silence
timer) taken during the call. -/
def add_audio {κ : Type} (cfg : RecorderConfig) (s : RecState κ) (now : ℚ)
    (audio : List ℚ) : Option TranscriptSegment × RecState κ :=
  if ¬ s.recording then
    (none, s)
  else
    let s := { s with audio_buffer := s.audio_buffer ++ [audio] }
    let total_samples := (s.audio_buffer.map List.length).sum
    let duration := (total_samples : ℚ) / cfg.sample_rate
    if duration ≥ cfg.max_duration_seconds then
      stop_and_get_segment cfg s now
    else
      let is_silence := energyLt audio silenceThreshold
      if is_silence then
        match s.silence_start with
        | none => (none, { s with silence_start := some now })
        | some t0 =>
          if now - t0 ≥ cfg.auto_stop_silence_seconds then
            stop_and_get_segment cfg s now
          else
            (none, s)
      else
        (none, { s with silence_start := none })

/-! ## `TriggerDetector` (`src/speech/trigger_detector.py`)

The detector runs Python regular expressions on the lower-cased text.
Research patterns have the shape
`(?:^|[.\s])(phrase)\s+(.+?)(?:[.?!]|$)` joined by `|`; start/stop
patterns are plain alternations of escaped literals.  Below,
`re.search` is modelled directly for those two pattern shapes: start
positions are scanned left to right, alternatives are tried in
declaration order at each position, `\s+` is greedy with backtracking
and `(.+?)` is lazy (`.` does not match a newline). -/

/-- Python's `\s` class (ASCII part): space, tab, newline, carriage
return, vertical tab, form feed. -/
def isPySpace (c : Char) : Bool :=
  c = ' ' ∨ c = '\t' ∨ c = '\n' ∨ c = '\r' ∨ c = Char.ofNat 11 ∨ c = Char.ofNat 12

/-- Python `str.strip()`: drop leading and trailing whitespace. -/
def pyStrip (s : List Char) : List Char :=
  ((s.dropWhile isPySpace).reverse.dropWhile isPySpace).reverse

/-- The suffix `(.+?)(?:[.?!]|$)` of a research pattern: the lazy group
takes the shortest non-empty run of non-newline characters that is
followed by `.`, `?`, `!` or the end of the string. -/
def lazyTopic : List Char → Option (List Char)
  | [] => none
  | c :: rest =>
    if c = '\n' then none
    else
      match rest with
      | [] => some [c]
      | d :: _ =>
        if d = '.' ∨ d = '?' ∨ d = '!' then some [c]
        else (lazyTopic rest).map (fun t => c :: t)

/-- Backtracking for the greedy `\s+` between phrase and topic: `q` is
the text after the phrase, whose whitespace run has length ≥ the fuel
argument; consume `k` whitespace characters for `k` from the full run
length down to 1, taking the first `k` for which the topic part
matches. -/
def wsBacktrack (phrase q : List Char) : ℕ → Option (List Char × List Char)
  | 0 => none
  | k + 1 =>
    match lazyTopic (q.drop (k + 1)) with
    | some topic => some (phrase, topic)
    | none => wsBacktrack phrase q k

/-- Match `(phrase)\s+(.+?)(?:[.?!]|$)` at the very start of `rest`. -/
def matchCore (phrase rest : List Char) : Option (List Char × List Char) :=
  if phrase.isPrefixOf rest then
    let q := rest.drop phrase.length
    wsBacktrack phrase q (q.takeWhile isPySpace).length
  else none

/-- Try one research alternative
`(?:^|[.\s])(phrase)\s+(.+?)(?:[.?!]|$)` at one start position
(`atStart` is true exactly at position 0, where the zero-width `^`
branch is tried before the one-character `[.\s]` branch). -/
def tryPhraseAt (atStart : Bool) (phrase rest : List Char) :
    Option (List Char × List Char) :=
  match (if atStart then matchCore phrase rest else none) with
  | some r => some r
  | none =>
    match rest with
    | [] => none
    | c :: tail =>
      if c = '.' ∨ isPySpace c then matchCore phrase tail else none

/-- `re.search` of the joined research pattern: scan start positions
left to right; at each position try the phrase alternatives in
configuration order.  Returns the matched `(phrase, raw topic)` group
pair of the first (leftmost, then first-alternative) match. -/
def searchAux (phrases : List (List Char)) : Bool → List Char → Option (List Char × List Char)
  | atStart, [] => phrases.findSome? (fun p => tryPhraseAt atStart p [])
  | atStart, c :: tail =>
    match phrases.findSome? (fun p => tryPhraseAt atStart p (c :: tail)) with
    | some r => some r
    | none => searchAux phrases false tail

/-- `re.search` of the research alternation over the whole text. -/
def researchSearch (phrases : List (List Char)) (text : List Char) :
    Option (List Char × List Char) :=
  searchAux phrases true text

/-- `re.search` of a plain alternation of literal phrases (the
start/stop patterns): leftmost position first, then declaration order;
the matched text (`match.group()`) equals the phrase itself. -/
def searchLiterals (phrases : List (List Char)) : List Char → Option (List Char)
  | [] => phrases.find? (fun p => p.isPrefixOf ([] : List Char))
  | c :: tail =>
    match phrases.find? (fun p => p.isPrefixOf (c :: tail)) with
    | some p => some p
    | none => searchLiterals phrases tail

/-- The filler words stripped from the front of a topic
(`TriggerDetector._clean_topic`). -/
def fillers : List (List Char) :=
  ["um".toList, "uh".toList, "like".toList, "you know".toList,
   "basically".toList, "actually".toList, "so".toList, "well".toList]

/-- The single pass over `fillers` in `_clean_topic`: each filler, in
list order, is stripped when the current topic (lower-cased) starts
with it followed by a space; the slice is taken from the original-case
topic and re-stripped. -/
def stripFillers (topic : List Char) : List Char :=
  fillers.foldl
    (fun t f =>
      if (f ++ [' ']).isPrefixOf (t.map Char.toLower) then pyStrip (t.drop f.length)
      else t)
    topic

/-- Python `topic.rstrip('.,!?;:')`. -/
def rstripPunct (t : List Char) : List Char :=
  (t.reverse.dropWhile
    (fun c => c = '.' ∨ c = ',' ∨ c = '!' ∨ c = '?' ∨ c = ';' ∨ c = ':')).reverse

/-- `TriggerDetector._clean_topic` (lines 147–167): the sequential
reassignments of `topic` — strip, drop leading fillers, strip trailing
punctuation — composed, then capitalize the first letter of a
non-empty result. -/
def clean_topic (topic : List Char) : List Char :=
  match rstripPunct (stripFillers (pyStrip topic)) with
  | [] => []
  | c :: rest => Char.toUpper c :: rest

/-- The trigger categories (`trigger_type` strings in the source). -/
inductive TriggerType where
  | research
  | transcription_start
  | transcription_stop
  deriving Repr, DecidableEq

/-- The dataclass `TriggerMatch`. -/
structure TriggerMatch where
  trigger_type : TriggerType
  trigger_phrase : List Char
  topic : Option (List Char)
  confidence : ℚ
  raw_text : List Char
  deriving Repr, DecidableEq

/-- The trigger configuration dictionary (phrase lists per category). -/
structure TriggersConfig where
  research : List (List Char) := []
  transcription_start : List (List Char) := []
  transcription_stop : List (List Char) := []
  custom : List (List Char) := []
  deriving Repr, DecidableEq

/-- `TriggerDetector.detect` (lines 74–145).  A pattern for a category
exists only when its phrase list is non-empty (`_compile_patterns`);
phrases are lower-cased at compile time.  The research block returns
only when the matched phrase and raw topic are non-empty (Python
truthiness of `trigger_phrase and topic`) and the cleaned topic is
non-empty; otherwise control falls through to the start check, then
the stop check. -/
def detect (cfg : TriggersConfig) (text : List Char) : Option TriggerMatch :=
  if text.isEmpty then none
  else
    let text_clean := pyStrip text
    let text_lower := text_clean.map Char.toLower
    let research_triggers := (cfg.research ++ cfg.custom).map (List.map Char.toLower)
    let fallback : Option TriggerMatch :=
      match (if cfg.transcription_start.isEmpty then none
             else searchLiterals (cfg.transcription_start.map (List.map Char.toLower))
                    text_lower) with
      | some m =>
        some { trigger_type := .transcription_start, trigger_phrase := m,
               topic := none, confidence := 9 / 10, raw_text := text_clean }
      | none =>
        match (if cfg.transcription_stop.isEmpty then none
               else searchLiterals (cfg.transcription_stop.map (List.map Char.toLower))
                      text_lower) with
        | some m =>
          some { trigger_type := .transcription_stop, trigger_phrase := m,
                 topic := none, confidence := 9 / 10, raw_text := text_clean }
        | none => none
    match (if research_triggers.isEmpty then none
           else researchSearch research_triggers text_lower) with
    | some (trigger_phrase, topic) =>
      if ¬ trigger_phrase.isEmpty ∧ ¬ topic.isEmpty then
        let topic := clean_topic topic
        if ¬ topic.isEmpty then
          some { trigger_type := .research, trigger_phrase := trigger_phrase,
                 topic := some topic, confidence := 9 / 10, raw_text := text_clean }
        else fallback
      else fallback
    | none => fallback

/-- The default trigger configuration (`src/config/defaults.py`,
`DEFAULT_SETTINGS["triggers"]`).  The apostrophe in
"that's important" is spelled `Char.ofNat 39`. -/
def defaultTriggers : TriggersConfig where
  research :=
    ["did you say".toList, "what is".toList, "tell me about".toList,
     "look up".toList, "search for".toList]
  transcription_start :=
    ["can you repeat that".toList,
     "let me note that down".toList,
     "that".toList ++ [Char.ofNat 39] ++ "s important".toList]
  transcription_stop :=
    ["thank you".toList, "that helps".toList, "got it".toList,
     "end note".toList, "stop recording".toList]
  custom := []

/-! ## `ResearchEngine` (`src/research/engine.py`) -/

/-- The dataclass `ResearchResult` (`src/research/providers/base.py`). -/
structure ResearchResult where
  topic : String
  summary : String
  provider : String
  model : String
  latency_ms : ℤ
  success : Bool
  error : Option String := none
  deriving Repr, DecidableEq

/-- Python's `a or b` on an optional string: `None` and the empty
string are falsy and fall through to `b`. -/
def pyOrStr (a b : Option String) : Option String :=
  match a with
  | none => b
  | some s => if s = "" then b else some s

/-- Rendering of `provider_name` inside the f-string error message
(`None` prints as "None"). -/
def renderName : Option String → String
  | none => "None"
  | some s => s

/-- `ResearchEngine.research` (lines 77–110), up to the provider call.
`providers` holds the keys of the `_providers` dictionary and
`default_provider` the `_default_provider` field.  The function either
returns the no-provider failure result (`Sum.inl`, built without any
provider call) or delegates the query to the named configured provider
(`Sum.inr`, the `await provider_instance.research(...)` network
attempt). -/
def research (providers : List String) (default_provider : Option String)
    (topic : String) (provider : Option String) : Sum ResearchResult String :=
  let provider_name := pyOrStr provider default_provider
  match provider_name with
  | none =>
    Sum.inl { topic := topic, summary := "", provider := "none", model := "",
              latency_ms := 0, success := false,
              error := some ("No provider available (requested: " ++ renderName none ++ ")") }
  | some name =>
    if name = "" ∨ name ∉ providers then
      Sum.inl { topic := topic, summary := "", provider := "none", model := "",
                latency_ms := 0, success := false,
                error := some ("No provider available (requested: " ++ name ++ ")") }
    else
      Sum.inr name

/-! ## `AudioProcessor.on_audio` (`src/main.py` lines 76–135) and the
capture loop that feeds it

`AudioCapture._capture_loop` reads one raw chunk per iteration and
always passes it to `_process_chunk`; the `on_audio` callback wired in
`MeetingAssistant.run` (main.py line 264) is `AudioProcessor.on_audio`,
so it only ever receives the completed utterances the VAD emits.
`on_audio` routes such a buffer to the recorder when a recording
session is active, and otherwise through transcription and trigger
detection.  The transcriber is an external collaborator, passed here as
a function `tr`; the research call is recorded as the topic sent to
`ResearchEngine.research_sync` rather than modelled further. -/

/-- What one `on_audio` call did: the recorder state it left behind, the
finished segment it processed (with the transcript attached by
`_process_transcript_segment`), the trigger match it acted on and the
topic it sent to the research engine. -/
structure OnAudioResult (κ : Type) where
  recorder : RecState κ
  completed : Option TranscriptSegment := none
  detected : Option TriggerMatch := none
  researchedTopic : Option (List Char) := none
  deriving Repr, DecidableEq

/-- `AudioProcessor.on_audio`.  `tr` is the external
`SpeechRecognizer.transcribe`; `on_complete` is the bound
`_process_transcript_segment` callback handed to `start_recording`;
`processing` is the `_processing` re-entrancy flag as seen on entry;
`now` stands for the clock reads of the call. -/
def on_audio {κ : Type} (cfg : RecorderConfig) (tcfg : TriggersConfig)
    (tr : List ℚ → List Char × ℚ) (on_complete : κ) (rec : RecState κ)
    (processing : Bool) (now : ℚ) (audio : List ℚ) : OnAudioResult κ :=
  if rec.recording then
    let (segment, rec') := add_audio cfg rec now audio
    { recorder := rec',
      completed := segment.map (fun g => { g with transcript := (tr g.audio_data).1 }) }
  else if processing then
    { recorder := rec }
  else
    let (text, confidence) := tr audio
    if ¬ text.isEmpty ∧ confidence > 3 / 10 then
      match detect tcfg text with
      | some m =>
        if m.trigger_type = .research ∧ (m.topic.getD []) ≠ [] then
          { recorder := rec, detected := some m, researchedTopic := m.topic }
        else if m.trigger_type = .transcription_start then
          { recorder := (start_recording rec now m.trigger_phrase on_complete).2,
            detected := some m }
        else if m.trigger_type = .transcription_stop then
          if rec.recording then
            let (segment, rec') := stop_recording cfg rec now
            { recorder := rec',
              completed := segment.map (fun g => { g with transcript := (tr g.audio_data).1 }),
              detected := some m }
          else
            { recorder := rec, detected := some m }
        else
          { recorder := rec, detected := some m }
      | none => { recorder := rec }
    else
      { recorder := rec }

/-- One iteration of the capture loop for one raw audio frame: the frame
goes through `_process_chunk` (the VAD state machine) unconditionally,
and `on_audio` runs only when the VAD emits an utterance. -/
def systemStep {κ : Type} (ccfg : CaptureConfig) (cfg : RecorderConfig)
    (tcfg : TriggersConfig) (tr : List ℚ → List Char × ℚ) (on_complete : κ)
    (cs : CaptureState) (rec : RecState κ) (processing : Bool) (now : ℚ)
    (audio : List ℚ) : CaptureState × OnAudioResult κ :=
  let (cs', emitted) := process_chunk ccfg cs audio
  match emitted with
  | none => (cs', { recorder := rec })
  | some utterance => (cs', on_audio cfg tcfg tr on_complete rec processing now utterance)

/-! ## Helper lemmas -/

/-- `Char.toUpper` is idempotent (its result is never a lowercase ASCII
letter). -/
theorem char_toUpper_idem (c : Char) : c.toUpper.toUpper = c.toUpper := by
  unfold Char.toUpper
  by_cases h : c.toNat ≥ 97 ∧ c.toNat ≤ 122
  · rw [if_pos h]
    have hv : (c.toNat - 32).isValidChar := by
      left; omega
    have heq : (Char.ofNat (c.toNat - 32)).toNat = c.toNat - 32 := by
      unfold Char.ofNat
      rw [dif_pos hv]
      rfl
    rw [if_neg]
    rw [heq]
    omega
  · rw [if_neg h, if_neg h]

/-- An RMS energy strictly below a threshold is in particular not
strictly above it. -/
theorem energyLt_not_gt {audio : List ℚ} {t : ℚ} (h : energyLt audio t = true) :
    energyGt audio t = false := by
  unfold energyLt at h
  unfold energyGt
  by_cases ht : t < 0
  · simp [ht] at h
  · simp only [ht, if_false, decide_eq_true_eq] at h
    simp only [ht, if_false, decide_eq_false_iff_not]
    linarith

/-- Every frame of the sequence has RMS energy strictly below the
speech-classification threshold `vad_threshold * 0.01`. -/
def allBelowSpeechThreshold (cfg : CaptureConfig) (frames : List (List ℚ)) : Bool :=
  frames.all (fun a => energyLt a (cfg.vad_threshold * vadScale))

/-- A `process_chunk` step on a non-speech frame from an idle
(`in_speech = false`) state buffers context only: no utterance is
emitted and the state stays idle. -/
theorem process_chunk_silent_idle (cfg : CaptureConfig) (s : CaptureState)
    (a : List ℚ) (hg : energyGt a (cfg.vad_threshold * vadScale) = false)
    (hs : s.in_speech = false) :
    (process_chunk cfg s a).1.in_speech = false ∧ (process_chunk cfg s a).2 = none := by
  unfold process_chunk
  simp [hg, hs]

/-- Invariant behind C3: from any idle state, an all-silent frame
sequence keeps the segmenter idle and emits nothing. -/
theorem processChunks_silent_inv (cfg : CaptureConfig) (frames : List (List ℚ)) :
    ∀ s : CaptureState, s.in_speech = false →
      allBelowSpeechThreshold cfg frames = true →
      (processChunks cfg s frames).1.in_speech = false ∧
        (processChunks cfg s frames).2 = [] := by
  induction frames with
  | nil =>
    intro s hs _
    simp [processChunks, hs]
  | cons a rest ih =>
    intro s hs hall
    simp only [allBelowSpeechThreshold, List.all_cons, Bool.and_eq_true] at hall
    have hg : energyGt a (cfg.vad_threshold * vadScale) = false :=
      energyLt_not_gt hall.1
    have hstep := process_chunk_silent_idle cfg s a hg hs
    have hrest := ih (process_chunk cfg s a).1 hstep.1 hall.2
    simp only [processChunks]
    rcases hpc : process_chunk cfg s a with ⟨s1, emitted⟩
    rw [hpc] at hstep hrest
    simp only at hstep hrest
    simp [hstep.2, hrest.1, hrest.2]

/-- C3: for every frame sequence whose frames all have RMS energy below
the speech-classification threshold, the segmenter, started from its
initial state, never emits an utterance (the `on_audio` callback is
never invoked). -/
theorem vad_all_silent_never_emits (cfg : CaptureConfig) (frames : List (List ℚ))
    (h : allBelowSpeechThreshold cfg frames = true) :
    (processChunks cfg initCapture frames).2 = [] :=
  (processChunks_silent_inv cfg frames initCapture rfl h).2

/-- Witness for C3 at the default threshold and three zero frames. -/
theorem vad_all_silent_never_emits_witness :
    allBelowSpeechThreshold { vad_threshold := 1 / 2 } [[0], [0], [0]] = true ∧
    (processChunks { vad_threshold := 1 / 2 } initCapture [[0], [0], [0]]).2 = [] :=
  ⟨by decide, vad_all_silent_never_emits { vad_threshold := 1 / 2 } [[0], [0], [0]] (by decide)⟩

/-- C2 counterexample: with the default threshold, after two silent
context frames a single speech frame already flips `in_speech` to true
(the buffer-length test counts retained context frames), so the two
frames immediately preceding the transition are not classified as
speech. -/
theorem vad_speech_start_counterexample :
    (processChunks { vad_threshold := 1 / 2 } initCapture [[0], [0]]).1.in_speech = false ∧
    (processChunks { vad_threshold := 1 / 2 } initCapture [[0], [0], [1]]).1.in_speech = true ∧
    energyGt [0] ((1 : ℚ) / 2 * vadScale) = false ∧
    energyGt [1] ((1 : ℚ) / 2 * vadScale) = true := by
  refine ⟨by decide, by decide, by decide, by decide⟩

/-- C2 (amended): from a not-in-speech state, `in_speech` becomes true
on a frame exactly when that frame is classified as speech and the
buffered frame count after appending it reaches 3 — the buffer may
contain up to 5 retained pre-speech context frames, so the preceding
frames need not be speech-classified. -/
theorem vad_speech_start_characterization (cfg : CaptureConfig) (s : CaptureState)
    (a : List ℚ) (hs : s.in_speech = false) :
    (process_chunk cfg s a).1.in_speech = true ↔
      energyGt a (cfg.vad_threshold * vadScale) = true ∧
        3 ≤ s.speech_buffer.length + 1 := by
  unfold process_chunk
  by_cases hg : energyGt a (cfg.vad_threshold * vadScale) = true
  · simp [hg, hs]
    try omega
  · simp only [Bool.not_eq_true] at hg
    simp [hg, hs]

/-- Witness for C2's amended theorem: two buffered context frames plus
one speech frame trigger the transition. -/
theorem vad_speech_start_characterization_witness :
    ({ silence_chunks := 0, speech_buffer := [[0], [0]], in_speech := false } :
        CaptureState).in_speech = false ∧
    ((process_chunk { vad_threshold := 1 / 2 }
        { silence_chunks := 0, speech_buffer := [[0], [0]], in_speech := false }
        [1]).1.in_speech = true ↔
      energyGt [1] (((1 : ℚ) / 2) * vadScale) = true ∧
        3 ≤ ([[0], [0]] : List (List ℚ)).length + 1) :=
  ⟨rfl,
   vad_speech_start_characterization { vad_threshold := 1 / 2 }
     { silence_chunks := 0, speech_buffer := [[0], [0]], in_speech := false } [1] rfl⟩

/-- C4: `start_recording` while a session is active returns `false` and
leaves the whole recorder state — buffer, trigger, start timestamp,
silence-run state and completion callback — exactly as it was. -/
theorem start_recording_while_active_noop {κ : Type} (s : RecState κ) (now : ℚ)
    (trigger : List Char) (on_complete : κ) (h : s.recording = true) :
    start_recording s now trigger on_complete = (false, s) := by
  unfold start_recording
  rw [if_pos h]

/-- A concrete recorder state with an active session and one buffered
frame, used by the recorder witnesses. -/
def recActive : RecState ℕ :=
  { recording := true, audio_buffer := [[1]], start_time := some 0,
    trigger := "can you repeat that".toList, silence_start := none,
    on_complete := some 1 }

/-- Witness for C4 at a concrete active session. -/
theorem start_recording_while_active_noop_witness :
    recActive.recording = true ∧
    start_recording recActive 5 "end note".toList 2 = (false, recActive) :=
  ⟨rfl, start_recording_while_active_noop recActive 5 "end note".toList 2 rfl⟩

/-- C5: on any `add_audio` call of an active session for which the
accumulated duration (buffered samples over the sample rate, the
appended frame included) reaches `max_duration_seconds`, the recorder
finalizes on that very call and returns the segment — with no
hypothesis on the frame's energy or on the silence-run state. -/
theorem add_audio_duration_cap_finalizes {κ : Type} (cfg : RecorderConfig)
    (s : RecState κ) (now : ℚ) (audio : List ℚ) (hrec : s.recording = true)
    (hdur : ((((s.audio_buffer ++ [audio]).map List.length).sum : ℕ) : ℚ) /
        cfg.sample_rate ≥ cfg.max_duration_seconds) :
    add_audio cfg s now audio =
      (some { trigger := s.trigger, start_time := s.start_time, end_time := now,
              duration_seconds :=
                (((s.audio_buffer ++ [audio]).flatten.length : ℕ) : ℚ) / cfg.sample_rate,
              audio_data := (s.audio_buffer ++ [audio]).flatten },
       { s with recording := false, audio_buffer := [], start_time := none }) := by
  unfold add_audio stop_and_get_segment
  simp [hrec, hdur]
  intro hlt
  exfalso
  rw [ge_iff_le, ← not_lt] at hdur
  apply hdur
  calc ((List.map List.length (s.audio_buffer ++ [audio])).sum : ℚ) / cfg.sample_rate
      = ((List.map (Nat.cast ∘ List.length) s.audio_buffer).sum + (audio.length : ℚ)) /
          cfg.sample_rate := by
        push_cast
        simp
    _ < cfg.max_duration_seconds := hlt

/-- A recorder configuration with sample rate 1 and a 2-second duration
cap, used by the C5 witness. -/
def capCfg : RecorderConfig :=
  { sample_rate := 1, auto_stop_silence_seconds := 5, max_duration_seconds := 2 }

/-- Witness for C5: sample rate 1, cap 2 seconds, one buffered frame
plus the incoming frame reach the cap; the incoming frame is loud
(energy 1, not silence), so only the duration policy can fire. -/
theorem add_audio_duration_cap_finalizes_witness :
    recActive.recording = true ∧
    (((((recActive.audio_buffer ++ [[1]]).map List.length).sum : ℕ) : ℚ) /
      capCfg.sample_rate ≥ capCfg.max_duration_seconds) ∧
    add_audio capCfg recActive 7 [1] =
      (some { trigger := recActive.trigger, start_time := recActive.start_time,
              end_time := 7,
              duration_seconds :=
                ((((recActive.audio_buffer ++ [[1]]).flatten.length : ℕ) : ℚ)) /
                  capCfg.sample_rate,
              audio_data := (recActive.audio_buffer ++ [[1]]).flatten },
       { recActive with recording := false, audio_buffer := [], start_time := none }) :=
  ⟨rfl, by norm_num [recActive, capCfg],
   add_audio_duration_cap_finalizes capCfg recActive 7 [1] rfl
     (by norm_num [recActive, capCfg])⟩

/-- C6: stopping twice in a row on an active session that captured
audio yields a segment then `None`; and `stop_recording` yields `None`
whenever no session is active or no audio was buffered. -/
theorem stop_recording_idempotent {κ : Type} (cfg : RecorderConfig)
    (s : RecState κ) (t1 t2 : ℚ) :
    (s.recording = true → s.audio_buffer ≠ [] →
       (stop_recording cfg s t1).1.isSome = true ∧
       (stop_recording cfg (stop_recording cfg s t1).2 t2).1 = none) ∧
    (s.recording = false → (stop_recording cfg s t1).1 = none) ∧
    (s.recording = true → s.audio_buffer = [] → (stop_recording cfg s t1).1 = none) := by
  refine ⟨fun hrec hbuf => ?_, fun hidle => ?_, fun hrec hbuf => ?_⟩
  · have h1 : stop_recording cfg s t1 =
        (some { trigger := s.trigger, start_time := s.start_time, end_time := t1,
                duration_seconds := ((s.audio_buffer.flatten.length : ℕ) : ℚ) / cfg.sample_rate,
                audio_data := s.audio_buffer.flatten },
         { s with recording := false, audio_buffer := [], start_time := none }) := by
      unfold stop_recording
      rw [hrec]
      simp [hbuf]
    rw [h1]
    refine ⟨rfl, ?_⟩
    unfold stop_recording
    simp
  · unfold stop_recording
    simp [hidle]
  · unfold stop_recording
    rw [hrec]
    simp [hbuf]

/-- The default recorder configuration (sample rate 16000, 5-second
silence auto-stop, 60-second cap). -/
def defaultRecorderConfig : RecorderConfig :=
  { sample_rate := 16000, auto_stop_silence_seconds := 5, max_duration_seconds := 60 }

/-- Witness for C6: the concrete active session `recActive` yields a
segment on the first stop and `None` on the second. -/
theorem stop_recording_idempotent_witness :
    (recActive.recording = true ∧ recActive.audio_buffer ≠ []) ∧
    ((stop_recording defaultRecorderConfig recActive 3).1.isSome = true ∧
     (stop_recording defaultRecorderConfig
       (stop_recording defaultRecorderConfig recActive 3).2 4).1 = none) :=
  ⟨⟨rfl, by decide⟩,
   (stop_recording_idempotent defaultRecorderConfig recActive 3 4).1 rfl (by decide)⟩

/-- C1 counterexample: with a recording session active
(`recActive.recording = true`), a raw speech frame fed to the capture
loop is consumed by the VAD state machine (buffered as speech) and
never reaches `add_audio`: the recorder state is exactly unchanged and
no segment is produced, contradicting "every raw frame is routed
directly to `add_audio`". -/
theorem recording_frame_bypass_counterexample :
    recActive.recording = true ∧
    systemStep { vad_threshold := 1 / 2 } defaultRecorderConfig defaultTriggers
        (fun _ => ([], 0)) 1 initCapture recActive false 0 [1] =
      ({ silence_chunks := 0, speech_buffer := [[1]], in_speech := false },
       { recorder := recActive }) := by
  refine ⟨rfl, by decide⟩

/-- C1 (amended): while a recording session is active, every raw frame
still passes through the VAD state machine (`_process_chunk`); only
when the VAD emits a completed utterance is that utterance buffer
routed to `TranscriptionRecorder.add_audio`, bypassing trigger
detection and research (`detected` and `researchedTopic` stay empty). -/
theorem recording_routes_vad_utterances {κ : Type} (ccfg : CaptureConfig)
    (cfg : RecorderConfig) (tcfg : TriggersConfig) (tr : List ℚ → List Char × ℚ)
    (cb : κ) (cs : CaptureState) (rec : RecState κ) (processing : Bool)
    (now : ℚ) (audio : List ℚ) (hrec : rec.recording = true) :
    systemStep ccfg cfg tcfg tr cb cs rec processing now audio =
      ((process_chunk ccfg cs audio).1,
       match (process_chunk ccfg cs audio).2 with
       | none => { recorder := rec }
       | some u =>
         { recorder := (add_audio cfg rec now u).2,
           completed := ((add_audio cfg rec now u).1).map
             (fun g => { g with transcript := (tr g.audio_data).1 }),
           detected := none, researchedTopic := none }) := by
  rcases hpc : process_chunk ccfg cs audio with ⟨cs1, emitted⟩
  unfold systemStep
  rw [hpc]
  cases emitted with
  | none => simp
  | some u =>
    rcases hau : add_audio cfg rec now u with ⟨seg, rec1⟩
    unfold on_audio
    rw [hrec]
    simp [hau]

/-- A capture state one silence chunk away from ending an utterance,
used by the C1 witness. -/
def csAlmostDone : CaptureState :=
  { silence_chunks := 9, speech_buffer := [[1]], in_speech := true }

/-- Witness for C1's amended theorem: a silent frame arriving while
`csAlmostDone` is in speech ends the utterance, and the emitted buffer
`[1, 0]` goes to `add_audio` of the active session `recActive`. -/
theorem recording_routes_vad_utterances_witness :
    recActive.recording = true ∧
    systemStep { vad_threshold := 1 / 2 } defaultRecorderConfig defaultTriggers
        (fun _ => ([], 0)) 1 csAlmostDone recActive false 0 [0] =
      ((process_chunk { vad_threshold := 1 / 2 } csAlmostDone [0]).1,
       match (process_chunk { vad_threshold := 1 / 2 } csAlmostDone [0]).2 with
       | none => { recorder := recActive }
       | some u =>
         { recorder := (add_audio defaultRecorderConfig recActive 0 u).2,
           completed := ((add_audio defaultRecorderConfig recActive 0 u).1).map
             (fun g => { g with transcript := ((fun _ => ([], 0)) g.audio_data).1 }),
           detected := none, researchedTopic := none }) :=
  ⟨rfl,
   recording_routes_vad_utterances { vad_threshold := 1 / 2 } defaultRecorderConfig
     defaultTriggers (fun _ => ([], 0)) 1 csAlmostDone recActive false 0 [0] rfl⟩

/-- C9 counterexample: the explicitly requested provider name `""` is
not among the configured providers, yet the call is not a latency-0
failure: `provider or self._default_provider` treats the empty string
as absent, so the query is delegated to the default provider — a
network attempt. -/
theorem research_unknown_provider_counterexample :
    ("" ∉ ["openai"]) ∧
    research ["openai"] (some "openai") "zero trust" (some "") = Sum.inr "openai" := by
  refine ⟨by simp, by rfl⟩

/-- The resolved provider name — the explicit argument when non-empty,
else the default — is missing, empty, or not configured. -/
def unknownRequested (providers : List String) (provider default_provider : Option String) :
    Prop :=
  ∀ name ∈ pyOrStr provider default_provider, name = "" ∨ name ∉ providers

/-- C9 (amended): whenever the resolved provider name (the explicit
argument when it is a non-empty string, otherwise the default; an
empty-string argument counts as absent) is missing, empty, or not among
the configured providers, `research` returns the no-provider failure
result — `success = false`, `latency_ms = 0`, an error message — and
delegates to no provider. -/
theorem research_unknown_provider_fails (providers : List String)
    (default_provider : Option String) (topic : String) (provider : Option String)
    (h : unknownRequested providers provider default_provider) :
    research providers default_provider topic provider =
      Sum.inl { topic := topic, summary := "", provider := "none", model := "",
                latency_ms := 0, success := false,
                error := some ("No provider available (requested: " ++
                  renderName (pyOrStr provider default_provider) ++ ")") } := by
  unfold research
  cases hpn : pyOrStr provider default_provider with
  | none => rfl
  | some name =>
    have hname := h name (by rw [hpn]; rfl)
    simp [hname, renderName]

/-- Witness for C9's amended theorem: requesting the unconfigured name
"mistral" when only "openai" is configured. -/
theorem research_unknown_provider_fails_witness :
    unknownRequested ["openai"] (some "mistral") (some "openai") ∧
    research ["openai"] (some "openai") "zero trust" (some "mistral") =
      Sum.inl { topic := "zero trust", summary := "", provider := "none", model := "",
                latency_ms := 0, success := false,
                error := some ("No provider available (requested: " ++
                  renderName (pyOrStr (some "mistral") (some "openai")) ++ ")") } :=
  ⟨by simp [unknownRequested, pyOrStr],
   research_unknown_provider_fails ["openai"] (some "openai") "zero trust"
     (some "mistral") (by simp [unknownRequested, pyOrStr])⟩

/-! ## Detector stage functions and claims

The three category checks of `detect`, stated as standalone functions
over the stripped/lower-cased text, to relate `detect`'s sequential
early-return structure to a priority cascade. -/

/-- The research check of `detect` in isolation: a match is kept only
when the matched phrase and raw topic are non-empty and the cleaned
topic is non-empty. -/
def researchStage (cfg : TriggersConfig) (text_lower text_clean : List Char) :
    Option TriggerMatch :=
  let research_triggers := (cfg.research ++ cfg.custom).map (List.map Char.toLower)
  match (if research_triggers.isEmpty then none
         else researchSearch research_triggers text_lower) with
  | some (p, t) =>
    if ¬ p.isEmpty ∧ ¬ t.isEmpty ∧ ¬ (clean_topic t).isEmpty then
      some { trigger_type := .research, trigger_phrase := p,
             topic := some (clean_topic t), confidence := 9 / 10,
             raw_text := text_clean }
    else none
  | none => none

/-- The note-start check of `detect` in isolation. -/
def startStage (cfg : TriggersConfig) (text_lower text_clean : List Char) :
    Option TriggerMatch :=
  match (if cfg.transcription_start.isEmpty then none
         else searchLiterals (cfg.transcription_start.map (List.map Char.toLower))
                text_lower) with
  | some m =>
    some { trigger_type := .transcription_start, trigger_phrase := m,
           topic := none, confidence := 9 / 10, raw_text := text_clean }
  | none => none

/-- The note-stop check of `detect` in isolation. -/
def stopStage (cfg : TriggersConfig) (text_lower text_clean : List Char) :
    Option TriggerMatch :=
  match (if cfg.transcription_stop.isEmpty then none
         else searchLiterals (cfg.transcription_stop.map (List.map Char.toLower))
                text_lower) with
  | some m =>
    some { trigger_type := .transcription_stop, trigger_phrase := m,
           topic := none, confidence := 9 / 10, raw_text := text_clean }
  | none => none

/-- C7: `detect` returns at most one match and is exactly the priority
cascade research-then-start-then-stop over the cleaned text, a research
match whose cleaned topic is empty being discarded so that detection
falls through to the start and stop checks; concretely, the research
category wins even when a stop phrase occurs earlier in the text
("got it so tell me about splunk"), and a discarded empty-topic
research match falls through to the stop check
("got it tell me about ."). -/
theorem detect_priority_cascade (cfg : TriggersConfig) (text : List Char) :
    (detect cfg text =
      if text.isEmpty then none
      else
        match researchStage cfg ((pyStrip text).map Char.toLower) (pyStrip text) with
        | some m => some m
        | none =>
          match startStage cfg ((pyStrip text).map Char.toLower) (pyStrip text) with
          | some m => some m
          | none => stopStage cfg ((pyStrip text).map Char.toLower) (pyStrip text)) ∧
    detect defaultTriggers "got it so tell me about splunk".toList =
      some { trigger_type := .research, trigger_phrase := "tell me about".toList,
             topic := some "Splunk".toList, confidence := 9 / 10,
             raw_text := "got it so tell me about splunk".toList } ∧
    detect defaultTriggers "got it tell me about .".toList =
      some { trigger_type := .transcription_stop, trigger_phrase := "got it".toList,
             topic := none, confidence := 9 / 10,
             raw_text := "got it tell me about .".toList } := by
  refine ⟨?_, by decide, by decide⟩
  unfold detect researchStage startStage stopStage
  by_cases he : text.isEmpty
  · simp [he]
  · simp only [he, if_false, Bool.false_eq_true]
    rcases hr : (if ((cfg.research ++ cfg.custom).map (List.map Char.toLower)).isEmpty
        then none
        else researchSearch ((cfg.research ++ cfg.custom).map (List.map Char.toLower))
          ((pyStrip text).map Char.toLower)) with _ | ⟨p, t⟩
    · simp only [hr]
      rcases hs : (if cfg.transcription_start.isEmpty then none
          else searchLiterals (cfg.transcription_start.map (List.map Char.toLower))
            ((pyStrip text).map Char.toLower)) with _ | m1 <;>
        simp [hs]
    · simp only [hr]
      by_cases hp : ¬ p.isEmpty = true ∧ ¬ t.isEmpty = true
      · by_cases hc : (clean_topic t).isEmpty = true
        · simp [hp, hc]
          rcases hs : (if cfg.transcription_start = [] then none
              else searchLiterals (List.map (List.map Char.toLower) cfg.transcription_start)
                (List.map Char.toLower (pyStrip text))) with _ | m1 <;>
            simp [hs]
        · simp [hp, hc]
      · have hsplit : ¬ (¬ p.isEmpty = true ∧ ¬ t.isEmpty = true ∧
            ¬ (clean_topic t).isEmpty = true) :=
          fun hcon => hp ⟨hcon.1, hcon.2.1⟩
        rw [if_neg hp, if_neg hsplit]
        rcases hs : (if cfg.transcription_start.isEmpty then none
            else searchLiterals (cfg.transcription_start.map (List.map Char.toLower))
              ((pyStrip text).map Char.toLower)) with _ | m1 <;>
          simp [hs]

/-- C8: with the default trigger configuration, "did you say kubernetes"
yields a research match with phrase "did you say" and topic
"Kubernetes"; and topic extraction strips the leading filler in
"tell me about um firewalls", yielding topic "Firewalls". -/
theorem detect_default_config_examples :
    detect defaultTriggers "did you say kubernetes".toList =
      some { trigger_type := .research, trigger_phrase := "did you say".toList,
             topic := some "Kubernetes".toList, confidence := 9 / 10,
             raw_text := "did you say kubernetes".toList } ∧
    detect defaultTriggers "tell me about um firewalls".toList =
      some { trigger_type := .research, trigger_phrase := "tell me about".toList,
             topic := some "Firewalls".toList, confidence := 9 / 10,
             raw_text := "tell me about um firewalls".toList } := by
  refine ⟨by rfl, by rfl⟩

set_option maxHeartbeats 1000000 in
/-- C10 counterexample: the topic extracted from "did you say 42" is
"42", whose first character is a digit — `topic[0].upper()` leaves it
unchanged and it is not an uppercase letter. -/
theorem research_topic_uppercase_counterexample :
    detect defaultTriggers "did you say 42".toList =
      some { trigger_type := .research, trigger_phrase := "did you say".toList,
             topic := some "42".toList, confidence := 9 / 10,
             raw_text := "did you say 42".toList } ∧
    Char.isUpper '4' = false := by
  refine ⟨by decide, by decide⟩

/-- A cleaned topic is empty or starts with the `Char.toUpper` of some
character (the capitalization step of `_clean_topic`). -/
theorem clean_topic_shape (t : List Char) :
    clean_topic t = [] ∨
      ∃ c rest, clean_topic t = Char.toUpper c :: rest := by
  unfold clean_topic
  cases h : rstripPunct (stripFillers (pyStrip t)) with
  | nil => left; rfl
  | cons c rest => right; exact ⟨c, rest, rfl⟩

/-- The start/stop fall-through of `detect` only produces matches with
no topic and a non-research type. -/
theorem fallback_topic_none (tc : List Char) (s st : Option (List Char))
    (m : TriggerMatch)
    (h : (match s with
          | some m1 =>
            some { trigger_type := TriggerType.transcription_start,
                   trigger_phrase := m1, topic := none, confidence := 9 / 10,
                   raw_text := tc }
          | none =>
            match st with
            | some m2 =>
              some { trigger_type := TriggerType.transcription_stop,
                     trigger_phrase := m2, topic := none, confidence := 9 / 10,
                     raw_text := tc }
            | none => none) = some m) :
    m.topic = none ∧ ¬ m.trigger_type = TriggerType.research := by
  rcases s with _ | m1
  · rcases st with _ | m2
    · simp at h
    · simp only [Option.some.injEq] at h
      subst h
      exact ⟨rfl, by simp⟩
  · simp only [Option.some.injEq] at h
    subst h
    exact ⟨rfl, by simp⟩

/-- C10 (amended): every research match carries a non-empty topic whose
first character is fixed under `Char.toUpper` (it is capitalized — not
a lowercase letter — though not necessarily an uppercase letter, since
digits and punctuation are left unchanged); every start or stop match
carries no topic. -/
theorem detect_topic_shape (cfg : TriggersConfig) (text : List Char)
    (m : TriggerMatch) (h : detect cfg text = some m) :
    (m.trigger_type = .research →
      ∃ c rest, m.topic = some (c :: rest) ∧ Char.toUpper c = c) ∧
    ((m.trigger_type = .transcription_start ∨
        m.trigger_type = .transcription_stop) → m.topic = none) := by
  unfold detect at h
  by_cases he : text.isEmpty
  · simp [he] at h
  · simp only [he, if_false, Bool.false_eq_true] at h
    split at h
    · rename_i p t heq
      split at h
      · split at h
        · rename_i hc
          simp only [Option.some.injEq] at h
          subst h
          refine ⟨fun _ => ?_, fun hcon => by simp at hcon⟩
          rcases clean_topic_shape t with hnil | ⟨c, rest, hcr⟩
          · simp [hnil] at hc
          · exact ⟨Char.toUpper c, rest, by simp [hcr], char_toUpper_idem c⟩
        · have hfb := fallback_topic_none (pyStrip text) _ _ m h
          exact ⟨fun hcon => absurd hcon hfb.2, fun _ => hfb.1⟩
      · have hfb := fallback_topic_none (pyStrip text) _ _ m h
        exact ⟨fun hcon => absurd hcon hfb.2, fun _ => hfb.1⟩
    · have hfb := fallback_topic_none (pyStrip text) _ _ m h
      exact ⟨fun hcon => absurd hcon hfb.2, fun _ => hfb.1⟩

/-- The research match for "did you say kubernetes" under the default
configuration, used by the C10 witness. -/
def kubernetesMatch : TriggerMatch :=
  { trigger_type := .research, trigger_phrase := "did you say".toList,
    topic := some "Kubernetes".toList, confidence := 9 / 10,
    raw_text := "did you say kubernetes".toList }

/-- Witness for C10's amended theorem at the concrete research match
for "did you say kubernetes". -/
theorem detect_topic_shape_witness :
    detect defaultTriggers "did you say kubernetes".toList = some kubernetesMatch ∧
    ((kubernetesMatch.trigger_type = .research →
      ∃ c rest, kubernetesMatch.topic = some (c :: rest) ∧ Char.toUpper c = c) ∧
     ((kubernetesMatch.trigger_type = .transcription_start ∨
        kubernetesMatch.trigger_type = .transcription_stop) →
       kubernetesMatch.topic = none)) :=
  ⟨by decide,
   detect_topic_shape defaultTriggers "did you say kubernetes".toList
     kubernetesMatch (by decide)⟩

end MeetingAssistant
